import Mathlib

/-!
Verification of the Speed-Limit-Golfball GPS speed-limit display.

The embedding follows the repository's Python sources:
  * `src/gps.py`    — NMEA sentence parsing into a coordinate fix
                      (`GPS._parse_nmea`, `GPS._convert_nmea_latitude`,
                      `GPS._convert_nmea_longitude`, `GPS.get_coordinates`);
  * `src/main.py`   — the haversine distance, the nearest-zone scan of
                      `main_loop`, and the per-cycle render decision.

Python floats are idealised as exact rationals (for parsed NMEA fields and
the unit conversion) and as real numbers (for the trigonometric haversine
computation); Python exceptions that the source catches are modelled with
`Option`.
-/

/-- Numeric value of a list of decimal digit characters, most significant
first, as Python's integer parsing computes it. -/
def digitsVal (cs : List Char) : ℕ :=
  cs.foldl (fun acc c => 10 * acc + (Char.toNat c - Char.toNat '0')) 0

/-- Splitting a character list on every occurrence of a separator character,
as Python's `str.split` with a one-character separator does: `n` separator
occurrences yield exactly `n + 1` (possibly empty) groups. -/
def splitOnChar (sep : Char) : List Char → List (List Char)
  | [] => [[]]
  | c :: rest =>
      if c = sep then [] :: splitOnChar sep rest
      else
        match splitOnChar sep rest with
        | [] => [[c]]
        | g :: gs => (c :: g) :: gs

/-- Body of a Python decimal literal after the sign: digits with at most one
decimal point and at least one digit in total. -/
def pyFloatBody (body : List Char) : Option ℚ :=
  match splitOnChar '.' body with
  | [ip] =>
      if ip ≠ [] ∧ ip.all Char.isDigit then some (digitsVal ip : ℚ) else none
  | [ip, fp] =>
      if (ip ≠ [] ∨ fp ≠ []) ∧ ip.all Char.isDigit ∧ fp.all Char.isDigit then
        some ((digitsVal ip : ℚ) + (digitsVal fp : ℚ) / (10 : ℚ) ^ fp.length)
      else none
  | _ => none

/-- Model of Python's `float()` on the plain decimal literals that NMEA
fields carry: an optional sign, then digits with at most one decimal point
and at least one digit. Any other string raises `ValueError` in Python,
modelled here as `none`. -/
def pyFloat (s : String) : Option ℚ :=
  match s.data with
  | [] => pyFloatBody []
  | c :: body =>
      if c = '+' then pyFloatBody body
      else if c = '-' then (pyFloatBody body).map Neg.neg
      else pyFloatBody (c :: body)

/-- Body of a Python integer literal after the sign: a nonempty digit run. -/
def pyIntBody (body : List Char) : Option ℤ :=
  if body ≠ [] ∧ body.all Char.isDigit then some (digitsVal body : ℤ) else none

/-- Model of Python's `int()` on the plain decimal strings that NMEA fields
carry: an optional sign then a nonempty digit run; anything else raises
`ValueError`, modelled as `none`. -/
def pyInt (s : String) : Option ℤ :=
  match s.data with
  | [] => pyIntBody []
  | c :: body =>
      if c = '+' then pyIntBody body
      else if c = '-' then (pyIntBody body).map Neg.neg
      else pyIntBody (c :: body)

/-- The comma-separated fields of an NMEA sentence, as
`nmea_sentence.split(',')` computes them in `GPS._parse_nmea`. -/
def sentenceFields (s : String) : List String :=
  (splitOnChar ',' s.data).map String.mk

/-- The first `n` characters of a string, as the Python slice `s[0:n]`
(which never fails, even on a shorter string). -/
def strTake (s : String) (n : ℕ) : String :=
  String.mk (s.data.take n)

/-- The characters of a string from index `n` on, as the Python slice
`s[n:]`. -/
def strDrop (s : String) (n : ℕ) : String :=
  String.mk (s.data.drop n)

/-- The mutable fix state of the `GPS` object in `src/gps.py`: `latitude`,
`longitude` (Python `None` or a float, idealised as ℚ) and `has_fix`. -/
structure GPSState where
  latitude : Option ℚ
  longitude : Option ℚ
  has_fix : Bool
deriving DecidableEq

/-- `GPS._convert_nmea_latitude` of `src/gps.py`: DDMM.MMMM to decimal
degrees; the first two characters are degrees, the rest minutes; negated for
direction `S`; `None` on an empty string or a `ValueError` from `float()`. -/
def convert_nmea_latitude (nmea_lat direction : String) : Option ℚ :=
  if nmea_lat = "" then none
  else
    match pyFloat (strTake nmea_lat 2), pyFloat (strDrop nmea_lat 2) with
    | some dd, some mm =>
        let decimal_degrees := dd + mm / 60
        some (if direction = "S" then -decimal_degrees else decimal_degrees)
    | _, _ => none

/-- `GPS._convert_nmea_longitude` of `src/gps.py`: DDDMM.MMMM to decimal
degrees; the first three characters are degrees, the rest minutes; negated
for direction `W`. -/
def convert_nmea_longitude (nmea_lon direction : String) : Option ℚ :=
  if nmea_lon = "" then none
  else
    match pyFloat (strTake nmea_lon 3), pyFloat (strDrop nmea_lon 3) with
    | some ddd, some mm =>
        let decimal_degrees := ddd + mm / 60
        some (if direction = "W" then -decimal_degrees else decimal_degrees)
    | _, _ => none

/-- The state `GPS._parse_nmea` leaves behind on every fix-invalidating
branch: coordinates cleared and `has_fix` false. -/
def clearedState : GPSState :=
  { latitude := none, longitude := none, has_fix := false }

/-- `GPS._parse_nmea` of `src/gps.py` as a state transition. The sentence is
split on commas; a `$GPGGA` or `$GPRMC` sentence with at least 10 fields
updates the fix state, any other line leaves the state untouched. The
`try/except` around the `$GPGGA` branch (a `ValueError` from `int()`) is the
`none` case of `pyInt`; with at least 10 fields no `IndexError` can occur. -/
def parse_nmea (st : GPSState) (nmea_sentence : String) : GPSState :=
  let parts := sentenceFields nmea_sentence
  if parts.getD 0 "" = "$GPGGA" ∧ 10 ≤ parts.length then
    match pyInt (parts.getD 6 "") with
    | none => clearedState
    | some fix_status =>
        if 1 ≤ fix_status then
          let lat_str := parts.getD 2 ""
          let lat_dir := parts.getD 3 ""
          let lon_str := parts.getD 4 ""
          let lon_dir := parts.getD 5 ""
          if lat_str ≠ "" ∧ lon_str ≠ "" then
            { latitude := convert_nmea_latitude lat_str lat_dir
              longitude := convert_nmea_longitude lon_str lon_dir
              has_fix := true }
          else clearedState
        else clearedState
  else if parts.getD 0 "" = "$GPRMC" ∧ 10 ≤ parts.length then
    if parts.getD 2 "" = "A" then
      let lat_str := parts.getD 3 ""
      let lat_dir := parts.getD 4 ""
      let lon_str := parts.getD 5 ""
      let lon_dir := parts.getD 6 ""
      if lat_str ≠ "" ∧ lon_str ≠ "" then
        { latitude := convert_nmea_latitude lat_str lat_dir
          longitude := convert_nmea_longitude lon_str lon_dir
          has_fix := true }
      else clearedState
    else clearedState
  else st

/-- `GPS.get_coordinates` of `src/gps.py`: the stored pair when `has_fix` is
set and both coordinates are present, `(None, None)` otherwise. -/
def get_coordinates (st : GPSState) : Option ℚ × Option ℚ :=
  if st.has_fix = true ∧ st.latitude.isSome = true ∧ st.longitude.isSome = true then
    (st.latitude, st.longitude)
  else (none, none)

/-- `math.radians` of Python: degrees to radians. -/
noncomputable def radians (x : ℝ) : ℝ :=
  x * (Real.pi / 180)

/-- `math.atan2` of Python: the two-argument arctangent, with the usual
quadrant corrections and `atan2 0 0 = 0`. -/
noncomputable def atan2 (y x : ℝ) : ℝ :=
  if 0 < x then Real.arctan (y / x)
  else if x < 0 ∧ 0 ≤ y then Real.arctan (y / x) + Real.pi
  else if x < 0 ∧ y < 0 then Real.arctan (y / x) - Real.pi
  else if x = 0 ∧ 0 < y then Real.pi / 2
  else if x = 0 ∧ y < 0 then -(Real.pi / 2)
  else 0

/-- `haversine_distance` of `src/main.py`: great-circle distance in meters
between two coordinates given in decimal degrees, Earth radius 6371000 m. -/
noncomputable def haversine_distance (lat1 lon1 lat2 lon2 : ℝ) : ℝ :=
  let R : ℝ := 6371000
  let lat1_rad := radians lat1
  let lon1_rad := radians lon1
  let lat2_rad := radians lat2
  let lon2_rad := radians lon2
  let dlon := lon2_rad - lon1_rad
  let dlat := lat2_rad - lat1_rad
  let a := Real.sin (dlat / 2) ^ 2 +
    Real.cos lat1_rad * Real.cos lat2_rad * Real.sin (dlon / 2) ^ 2
  let c := 2 * atan2 (Real.sqrt a) (Real.sqrt (1 - a))
  R * c

/-- A speed-limit zone from the `features` of `speed_limits.json` as
`main_loop` reads it: a center (`geometry.coordinates` is `[lon, lat]`) and
`properties.speed_mph`. -/
structure SpeedZone where
  lat : ℝ
  lon : ℝ
  speed_mph : ℕ

/-- `MAX_DISTANCE_METERS` of `src/main.py`. -/
def MAX_DISTANCE_METERS : ℝ := 150

/-- The distance `main_loop` computes for one zone of the table:
`haversine_distance(lat, lon, zone_lat, zone_lon)`. -/
noncomputable def zoneDist (lat lon : ℝ) (z : SpeedZone) : ℝ :=
  haversine_distance lat lon z.lat z.lon

/-- The running-minimum test `distance < min_distance` of `main_loop`, where
`none` stands for the initial `min_distance = float('inf')`. -/
def distLtMin (d : ℝ) : Option (ℕ × ℝ) → Prop
  | none => True
  | some best => d < best.2

noncomputable instance (d : ℝ) (best : Option (ℕ × ℝ)) : Decidable (distLtMin d best) :=
  match best with
  | none => isTrue trivial
  | some p => inferInstanceAs (Decidable (d < p.2))

/-- The zone scan of `main_loop` (`src/main.py` lines 122-133): fold over the
zone table keeping `(closest_speed_limit, min_distance)`, updating whenever
`distance <= MAX_DISTANCE_METERS and distance < min_distance`. -/
noncomputable def scan_zones (lat lon : ℝ) (best : Option (ℕ × ℝ)) :
    List SpeedZone → Option (ℕ × ℝ)
  | [] => best
  | z :: rest =>
      let distance := zoneDist lat lon z
      if distance ≤ MAX_DISTANCE_METERS ∧ distLtMin distance best then
        scan_zones lat lon (some (z.speed_mph, distance)) rest
      else scan_zones lat lon best rest

/-- The value of `closest_speed_limit` after `main_loop`'s scan of the whole
zone table, starting from `None` and `min_distance = float('inf')`. -/
noncomputable def closest_speed_limit (lat lon : ℝ) (zones : List SpeedZone) : Option ℕ :=
  (scan_zones lat lon none zones).map Prod.fst

/-- Python's `round()` on an exact rational: round half to even. -/
def pyRound (x : ℚ) : ℤ :=
  let n := ⌊x⌋
  if x - n < 1 / 2 then n
  else if 1 / 2 < x - n then n + 1
  else if Even n then n else n + 1

/-- One render command per cycle, as `main_loop` drives the display
collaborator: `lcd.show_message` or `lcd.show_speed_limit`. -/
inductive RenderCommand where
  | ShowMessage (text : String)
  | ShowSpeedLimit (value : ℤ) (unit : String)
deriving DecidableEq

/-- The unit-toggle step at the top of each `main_loop` cycle (lines
114-117): a pending toggle flips `current_unit_is_mph`. -/
def toggle_step (toggle_status : Bool) (current_unit_is_mph : Bool) : Bool :=
  if toggle_status then !current_unit_is_mph else current_unit_is_mph

/-- The render decision of one `main_loop` cycle (`src/main.py` lines
119-148), after the unit toggle has been handled: on a fix, scan the zone
table and show the limit (converted with `round(mph * 1.60934)` when the
unit is KPH) or `"No limit found"`; with no fix, show `"Waiting for
GPS..."`. -/
noncomputable def main_cycle (current_unit_is_mph : Bool)
    (coords : Option ℚ × Option ℚ) (zones : List SpeedZone) : RenderCommand :=
  match coords with
  | (some lat, some lon) =>
      match closest_speed_limit (lat : ℝ) (lon : ℝ) zones with
      | some s =>
          if current_unit_is_mph then RenderCommand.ShowSpeedLimit (s : ℤ) "MPH"
          else RenderCommand.ShowSpeedLimit (pyRound ((s : ℚ) * 1.60934)) "KPH"
      | none => RenderCommand.ShowMessage "No limit found"
  | _ => RenderCommand.ShowMessage "Waiting for GPS..."

/-- The classic GPGGA example sentence from the spec (`4807.038,N` decodes
to latitude 48.1173). -/
def ggaExample : String := "$GPGGA,123519,4807.038,N,01131.000,E,1,08,0.9,545.4,M,46.9,M,,"

/-- A recognized GPGGA sentence (10 fields, fix quality 1) whose non-empty
latitude field `"12AB.0"` does not parse as a float. -/
def ggaBadLat : String := "$GPGGA,1,12AB.0,N,00000.000,E,1,a,b,c"

/-- A recognized GPGGA sentence that is accepted as a valid fix but decodes
to latitude 99, outside [-90, 90]. -/
def ggaLat99 : String := "$GPGGA,1,9900.000,N,00000.000,E,1,a,b,c"

/-! ### Helper lemmas -/

theorem atan2_zero_one : atan2 0 1 = 0 := by
  rw [atan2, if_pos (by norm_num : (0:ℝ) < 1)]
  simp [Real.arctan_zero]

theorem haversine_self (lat lon : ℝ) : haversine_distance lat lon lat lon = 0 := by
  unfold haversine_distance
  simp [sub_self, Real.sin_zero, Real.sqrt_zero, Real.sqrt_one, atan2_zero_one]

theorem haversine_comm (lat1 lon1 lat2 lon2 : ℝ) :
    haversine_distance lat1 lon1 lat2 lon2 = haversine_distance lat2 lon2 lat1 lon1 := by
  have hsin : ∀ u v : ℝ, Real.sin ((u - v) / 2) ^ 2 = Real.sin ((v - u) / 2) ^ 2 := by
    intro u v
    rw [show (u - v) / 2 = -((v - u) / 2) by ring, Real.sin_neg, neg_sq]
  simp only [haversine_distance]
  rw [hsin (radians lat2) (radians lat1), hsin (radians lon2) (radians lon1),
    mul_comm (Real.cos (radians lat1)) (Real.cos (radians lat2))]

/-- Scan characterisation from a best-so-far accumulator `(s₀, m₀)`: either
nothing in the remaining list is both in radius and strictly below `m₀` and
the accumulator survives, or the scan ends at the first-encountered zone
attaining the strict minimum of the in-radius distances below `m₀`. -/
theorem scan_zones_from_some (lat lon : ℝ) (l : List SpeedZone) :
    ∀ s₀ : ℕ, ∀ m₀ : ℝ,
    (scan_zones lat lon (some (s₀, m₀)) l = some (s₀, m₀) ∧
      ∀ y ∈ l, zoneDist lat lon y ≤ MAX_DISTANCE_METERS → m₀ ≤ zoneDist lat lon y) ∨
    (∃ l₁ z l₂, l = l₁ ++ z :: l₂ ∧
      scan_zones lat lon (some (s₀, m₀)) l = some (z.speed_mph, zoneDist lat lon z) ∧
      zoneDist lat lon z ≤ MAX_DISTANCE_METERS ∧ zoneDist lat lon z < m₀ ∧
      (∀ y ∈ l₁, zoneDist lat lon y ≤ MAX_DISTANCE_METERS →
        zoneDist lat lon z < zoneDist lat lon y) ∧
      (∀ y ∈ l₂, zoneDist lat lon y ≤ MAX_DISTANCE_METERS →
        zoneDist lat lon z ≤ zoneDist lat lon y)) := by
  induction l with
  | nil => exact fun s₀ m₀ => Or.inl ⟨rfl, by simp⟩
  | cons z rest ih =>
    intro s₀ m₀
    by_cases h : zoneDist lat lon z ≤ MAX_DISTANCE_METERS ∧ zoneDist lat lon z < m₀
    · have hstep : scan_zones lat lon (some (s₀, m₀)) (z :: rest) =
          scan_zones lat lon (some (z.speed_mph, zoneDist lat lon z)) rest := by
        simp only [scan_zones]
        exact if_pos ⟨h.1, h.2⟩
      rcases ih z.speed_mph (zoneDist lat lon z) with
        ⟨heq, hall⟩ | ⟨l₁, w, l₂, hl, heq, hw150, hwlt, hfirst, hrest⟩
      · exact Or.inr ⟨[], z, rest, rfl, by rw [hstep, heq], h.1, h.2, by simp, hall⟩
      · refine Or.inr ⟨z :: l₁, w, l₂, by simp [hl], by rw [hstep, heq], hw150,
          lt_trans hwlt h.2, ?_, hrest⟩
        intro y hy h150
        rcases List.mem_cons.mp hy with rfl | hy'
        · exact hwlt
        · exact hfirst y hy' h150
    · have hstep : scan_zones lat lon (some (s₀, m₀)) (z :: rest) =
          scan_zones lat lon (some (s₀, m₀)) rest := by
        simp only [scan_zones]
        exact if_neg h
      push_neg at h
      rcases ih s₀ m₀ with
        ⟨heq, hall⟩ | ⟨l₁, w, l₂, hl, heq, hw150, hwlt, hfirst, hrest⟩
      · refine Or.inl ⟨by rw [hstep, heq], ?_⟩
        intro y hy h150
        rcases List.mem_cons.mp hy with rfl | hy'
        · exact h h150
        · exact hall y hy' h150
      · refine Or.inr ⟨z :: l₁, w, l₂, by simp [hl], by rw [hstep, heq], hw150, hwlt, ?_, hrest⟩
        intro y hy h150
        rcases List.mem_cons.mp hy with rfl | hy'
        · exact lt_of_lt_of_le hwlt (h h150)
        · exact hfirst y hy' h150

/-- Scan characterisation from the initial accumulator (`closest = None`,
`min_distance = inf`): no zone is in radius and the scan returns `none`, or
it ends at the first-encountered zone attaining the minimum in-radius
distance. -/
theorem scan_zones_from_none (lat lon : ℝ) (l : List SpeedZone) :
    (scan_zones lat lon none l = none ∧
      ∀ y ∈ l, ¬ zoneDist lat lon y ≤ MAX_DISTANCE_METERS) ∨
    (∃ l₁ z l₂, l = l₁ ++ z :: l₂ ∧
      scan_zones lat lon none l = some (z.speed_mph, zoneDist lat lon z) ∧
      zoneDist lat lon z ≤ MAX_DISTANCE_METERS ∧
      (∀ y ∈ l₁, zoneDist lat lon y ≤ MAX_DISTANCE_METERS →
        zoneDist lat lon z < zoneDist lat lon y) ∧
      (∀ y ∈ l₂, zoneDist lat lon y ≤ MAX_DISTANCE_METERS →
        zoneDist lat lon z ≤ zoneDist lat lon y)) := by
  induction l with
  | nil => exact Or.inl ⟨rfl, by simp⟩
  | cons z rest ih =>
    by_cases h : zoneDist lat lon z ≤ MAX_DISTANCE_METERS
    · have hstep : scan_zones lat lon none (z :: rest) =
          scan_zones lat lon (some (z.speed_mph, zoneDist lat lon z)) rest := by
        simp only [scan_zones]
        exact if_pos ⟨h, trivial⟩
      rcases scan_zones_from_some lat lon rest z.speed_mph (zoneDist lat lon z) with
        ⟨heq, hall⟩ | ⟨l₁, w, l₂, hl, heq, hw150, hwlt, hfirst, hrest⟩
      · exact Or.inr ⟨[], z, rest, rfl, by rw [hstep, heq], h, by simp, hall⟩
      · refine Or.inr ⟨z :: l₁, w, l₂, by simp [hl], by rw [hstep, heq], hw150, ?_, hrest⟩
        intro y hy h150
        rcases List.mem_cons.mp hy with rfl | hy'
        · exact hwlt
        · exact hfirst y hy' h150
    · have hstep : scan_zones lat lon none (z :: rest) = scan_zones lat lon none rest := by
        simp only [scan_zones]
        exact if_neg fun hc => h hc.1
      rcases ih with ⟨heq, hall⟩ | ⟨l₁, w, l₂, hl, heq, hw150, hfirst, hrest⟩
      · refine Or.inl ⟨by rw [hstep, heq], ?_⟩
        intro y hy
        rcases List.mem_cons.mp hy with rfl | hy'
        · exact h
        · exact hall y hy'
      · refine Or.inr ⟨z :: l₁, w, l₂, by simp [hl], by rw [hstep, heq], hw150, ?_, hrest⟩
        intro y hy h150
        rcases List.mem_cons.mp hy with rfl | hy'
        · exact absurd h150 h
        · exact hfirst y hy' h150

/-- The zone table entry at the fix itself is at distance zero, hence always
within radius and minimal: a one-zone table centred on the fix is found. -/
theorem closest_speed_limit_self (lat lon : ℝ) (s : ℕ) :
    closest_speed_limit lat lon [⟨lat, lon, s⟩] = some s := by
  have hd : zoneDist lat lon ⟨lat, lon, s⟩ = 0 := by
    simp [zoneDist, haversine_self]
  unfold closest_speed_limit
  simp only [scan_zones]
  rw [if_pos ⟨by rw [hd]; norm_num [MAX_DISTANCE_METERS], trivial⟩]
  rfl

/-! ### Claim theorems -/

/-- C1: the nearest-zone lookup of `main_loop` returns no zone exactly when
the table is empty or every zone's haversine distance from the fix exceeds
150 m (`MAX_DISTANCE_METERS`); otherwise it returns the speed of a zone that
is within 150 m and of minimal distance, and among equidistant minimal zones
the first one in table order wins, because the running minimum is only
replaced on a strictly smaller distance. -/
theorem C1_nearest_zone (lat lon : ℝ) (zones : List SpeedZone) :
    (closest_speed_limit lat lon zones = none ↔
      ∀ z ∈ zones, ¬ zoneDist lat lon z ≤ MAX_DISTANCE_METERS) ∧
    ∀ s, closest_speed_limit lat lon zones = some s →
      ∃ l₁ z l₂, zones = l₁ ++ z :: l₂ ∧ s = z.speed_mph ∧
        zoneDist lat lon z ≤ MAX_DISTANCE_METERS ∧
        (∀ y ∈ zones, zoneDist lat lon y ≤ MAX_DISTANCE_METERS →
          zoneDist lat lon z ≤ zoneDist lat lon y) ∧
        (∀ y ∈ l₁, zoneDist lat lon y ≤ MAX_DISTANCE_METERS →
          zoneDist lat lon z < zoneDist lat lon y) := by
  constructor
  · constructor
    · intro hnone
      unfold closest_speed_limit at hnone
      rcases scan_zones_from_none lat lon zones with ⟨_, hall⟩ | ⟨l₁, z, l₂, hl, heq, _, _, _⟩
      · exact hall
      · rw [heq] at hnone
        cases hnone
    · intro hall
      rcases scan_zones_from_none lat lon zones with ⟨heq, _⟩ | ⟨l₁, z, l₂, hl, heq, h150, _, _⟩
      · unfold closest_speed_limit
        rw [heq]
        rfl
      · refine absurd h150 (hall z ?_)
        rw [hl]
        exact List.mem_append_right _ (List.mem_cons_self _ _)
  · intro s hs
    rcases scan_zones_from_none lat lon zones with ⟨heq, _⟩ | ⟨l₁, z, l₂, hl, heq, h150, hfirst, hrest⟩
    · unfold closest_speed_limit at hs
      rw [heq] at hs
      cases hs
    · unfold closest_speed_limit at hs
      rw [heq] at hs
      have hsz : s = z.speed_mph := by simpa using hs.symm
      refine ⟨l₁, z, l₂, hl, hsz, h150, ?_, hfirst⟩
      intro y hy h150y
      rw [hl] at hy
      rcases List.mem_append.mp hy with hy1 | hy2
      · exact le_of_lt (hfirst y hy1 h150y)
      · rcases List.mem_cons.mp hy2 with rfl | hy3
        · exact le_refl _
        · exact hrest y hy3 h150y

/-- C6: in a cycle where the tracker reports no fix (`get_coordinates`
returns `(None, None)`), `main_loop` emits exactly
`ShowMessage("Waiting for GPS...")`, whatever the zone table holds — the
zone scan is never reached. -/
theorem C6_no_fix_message (st : GPSState) (u : Bool) (zones : List SpeedZone)
    (h : get_coordinates st = (none, none)) :
    main_cycle u (get_coordinates st) zones = RenderCommand.ShowMessage "Waiting for GPS..." := by
  rw [h]
  rfl

theorem C6_no_fix_message_witness :
    main_cycle true (get_coordinates clearedState) [] =
      RenderCommand.ShowMessage "Waiting for GPS..." :=
  C6_no_fix_message clearedState true [] (by decide)

/-- C7: when the zone scan finds a limit, the displayed value is the stored
`speed_mph` unchanged under MPH, and `round(speed_mph * 1.60934)` (Python
banker's rounding) under KPH; in particular 60 mph displays as 97 KPH and
55 mph as 89 KPH. -/
theorem C7_unit_conversion (lat lon : ℚ) (zones : List SpeedZone) (s : ℕ)
    (h : closest_speed_limit (lat : ℝ) (lon : ℝ) zones = some s) :
    main_cycle true (some lat, some lon) zones = RenderCommand.ShowSpeedLimit (s : ℤ) "MPH" ∧
    main_cycle false (some lat, some lon) zones =
      RenderCommand.ShowSpeedLimit (pyRound ((s : ℚ) * 1.60934)) "KPH" ∧
    pyRound ((60 : ℚ) * 1.60934) = 97 ∧ pyRound ((55 : ℚ) * 1.60934) = 89 := by
  refine ⟨?_, ?_, by norm_num [pyRound], by norm_num [pyRound]⟩
  · simp only [main_cycle, h]
    rfl
  · simp only [main_cycle, h]
    rfl

theorem C7_unit_conversion_witness :
    main_cycle true (some 0, some 0) [⟨0, 0, 60⟩] =
      RenderCommand.ShowSpeedLimit (60 : ℤ) "MPH" ∧
    main_cycle false (some 0, some 0) [⟨0, 0, 60⟩] =
      RenderCommand.ShowSpeedLimit (pyRound ((60 : ℚ) * 1.60934)) "KPH" ∧
    pyRound ((60 : ℚ) * 1.60934) = 97 ∧ pyRound ((55 : ℚ) * 1.60934) = 89 := by
  have h : closest_speed_limit (((0 : ℚ) : ℝ)) (((0 : ℚ) : ℝ)) [⟨0, 0, 60⟩] = some 60 := by
    have h0 := closest_speed_limit_self (0 : ℝ) (0 : ℝ) 60
    simpa using h0
  exact C7_unit_conversion 0 0 [⟨0, 0, 60⟩] 60 h

/-- C8: the haversine distance is a pure function of its four arguments (a
Lean function by construction, computed with Earth radius 6371000 m); the
distance from a coordinate to itself is zero and the distance is symmetric
in the two coordinates. -/
theorem C8_haversine_props (lat1 lon1 lat2 lon2 : ℝ) :
    haversine_distance lat1 lon1 lat1 lon1 = 0 ∧
    haversine_distance lat1 lon1 lat2 lon2 = haversine_distance lat2 lon2 lat1 lon1 :=
  ⟨haversine_self lat1 lon1, haversine_comm lat1 lon1 lat2 lon2⟩

/-- C10: `get_coordinates` returns the stored pair exactly when `has_fix` is
set and both stored coordinates are present; in every other state it returns
`(None, None)`, and its two components are `None` together — the decision
loop never sees a pair with exactly one `None`, even when the parser has set
`has_fix` with a failed coordinate conversion. -/
theorem C10_get_coordinates_safety (st : GPSState) :
    (∀ a b : ℚ, get_coordinates st = (some a, some b) ↔
      st.has_fix = true ∧ st.latitude = some a ∧ st.longitude = some b) ∧
    ((get_coordinates st).1 = none ↔ (get_coordinates st).2 = none) ∧
    ((st.has_fix = false ∨ st.latitude = none ∨ st.longitude = none) →
      get_coordinates st = (none, none)) := by
  obtain ⟨la, lo, hf⟩ := st
  unfold get_coordinates
  cases hf <;> cases la <;> cases lo <;> simp

/-- C2: a `$GPGGA` sentence with at least 10 fields, a fix quality parsing
to an integer ≥ 1 and non-empty coordinate fields yields a valid fix whose
latitude is `float(first 2 chars) + float(rest)/60`, negated for direction
`S`, and whose longitude is `float(first 3 chars) + float(rest)/60`, negated
for direction `W` (the stated floats being the parses of those slices). -/
theorem C2_gpgga_decode (st : GPSState) (s : String) (q : ℤ) (dd mm ddd mm2 : ℚ)
    (h0 : (sentenceFields s).getD 0 "" = "$GPGGA")
    (h1 : 10 ≤ (sentenceFields s).length)
    (h2 : pyInt ((sentenceFields s).getD 6 "") = some q)
    (h3 : 1 ≤ q)
    (h4 : (sentenceFields s).getD 2 "" ≠ "")
    (h5 : (sentenceFields s).getD 4 "" ≠ "")
    (h6 : pyFloat (strTake ((sentenceFields s).getD 2 "") 2) = some dd)
    (h7 : pyFloat (strDrop ((sentenceFields s).getD 2 "") 2) = some mm)
    (h8 : pyFloat (strTake ((sentenceFields s).getD 4 "") 3) = some ddd)
    (h9 : pyFloat (strDrop ((sentenceFields s).getD 4 "") 3) = some mm2) :
    (parse_nmea st s).has_fix = true ∧
    (parse_nmea st s).latitude =
      some (if (sentenceFields s).getD 3 "" = "S" then -(dd + mm / 60) else dd + mm / 60) ∧
    (parse_nmea st s).longitude =
      some (if (sentenceFields s).getD 5 "" = "W" then -(ddd + mm2 / 60) else ddd + mm2 / 60) := by
  have hlat : convert_nmea_latitude ((sentenceFields s).getD 2 "") ((sentenceFields s).getD 3 "") =
      some (if (sentenceFields s).getD 3 "" = "S" then -(dd + mm / 60) else dd + mm / 60) := by
    unfold convert_nmea_latitude
    rw [if_neg h4, h6, h7]
  have hlon : convert_nmea_longitude ((sentenceFields s).getD 4 "") ((sentenceFields s).getD 5 "") =
      some (if (sentenceFields s).getD 5 "" = "W" then -(ddd + mm2 / 60) else ddd + mm2 / 60) := by
    unfold convert_nmea_longitude
    rw [if_neg h5, h8, h9]
  simp only [parse_nmea]
  rw [if_pos ⟨h0, h1⟩]
  simp only [h2]
  rw [if_pos h3, if_pos ⟨h4, h5⟩]
  exact ⟨rfl, by rw [← hlat], by rw [← hlon]⟩

theorem C2_gpgga_decode_witness :
    (parse_nmea clearedState ggaExample).has_fix = true ∧
    (parse_nmea clearedState ggaExample).latitude = some (48.1173 : ℚ) ∧
    (parse_nmea clearedState ggaExample).longitude = some (691 / 60 : ℚ) := by
  have h := C2_gpgga_decode clearedState ggaExample 1 48 (7.038 : ℚ) 11 31
    (by decide) (by decide) (by decide) (by decide) (by decide) (by decide)
    (by simp [ggaExample, sentenceFields, splitOnChar, strTake, pyFloat, pyFloatBody, digitsVal])
    (by simp [ggaExample, sentenceFields, splitOnChar, strDrop, pyFloat, pyFloatBody, digitsVal]
        norm_num)
    (by simp [ggaExample, sentenceFields, splitOnChar, strTake, pyFloat, pyFloatBody, digitsVal])
    (by simp [ggaExample, sentenceFields, splitOnChar, strDrop, pyFloat, pyFloatBody, digitsVal])
  obtain ⟨ha, hb, hc⟩ := h
  refine ⟨ha, ?_, ?_⟩
  · rw [hb]
    simp [ggaExample, sentenceFields, splitOnChar]
    norm_num
  · rw [hc]
    simp [ggaExample, sentenceFields, splitOnChar]
    norm_num

/-- C3 counterexample: `ggaBadLat` is a recognized `$GPGGA` sentence with 10
fields, fix quality 1 and a non-empty but unparseable latitude field
(`"12AB.0"`); the parser nevertheless sets `has_fix` to `true` (with the
latitude stored as `None`), so the tracker is not left in the claimed
invalid-fix state `has_fix = false`. -/
theorem C3_malformed_counterexample :
    (parse_nmea clearedState ggaBadLat).has_fix = true ∧
    (parse_nmea clearedState ggaBadLat).latitude = none := by
  constructor
  · decide
  · decide

/-- C3 amended: a non-numeric fix-quality field in a recognized `$GPGGA`
sentence does put the tracker in the invalid-fix state (`has_fix = false`,
coordinates cleared). A non-empty but unparseable coordinate field, however,
leaves `has_fix = true` with the failed coordinate stored as `None`; the
fix is only suppressed at the public interface, where `get_coordinates`
still returns `(None, None)`. The model is a total function: no exception
escapes in either case. -/
theorem C3_malformed_amended (st : GPSState) (s : String) :
    ((sentenceFields s).getD 0 "" = "$GPGGA" → 10 ≤ (sentenceFields s).length →
      pyInt ((sentenceFields s).getD 6 "") = none → parse_nmea st s = clearedState) ∧
    ((sentenceFields s).getD 0 "" = "$GPGGA" → 10 ≤ (sentenceFields s).length →
      ∀ q : ℤ, pyInt ((sentenceFields s).getD 6 "") = some q → 1 ≤ q →
      (sentenceFields s).getD 2 "" ≠ "" → (sentenceFields s).getD 4 "" ≠ "" →
      (convert_nmea_latitude ((sentenceFields s).getD 2 "") ((sentenceFields s).getD 3 "") = none ∨
        convert_nmea_longitude ((sentenceFields s).getD 4 "") ((sentenceFields s).getD 5 "") = none) →
      (parse_nmea st s).has_fix = true ∧ get_coordinates (parse_nmea st s) = (none, none)) ∧
    ((sentenceFields s).getD 0 "" = "$GPRMC" → 10 ≤ (sentenceFields s).length →
      (sentenceFields s).getD 2 "" = "A" →
      (sentenceFields s).getD 3 "" ≠ "" → (sentenceFields s).getD 5 "" ≠ "" →
      (convert_nmea_latitude ((sentenceFields s).getD 3 "") ((sentenceFields s).getD 4 "") = none ∨
        convert_nmea_longitude ((sentenceFields s).getD 5 "") ((sentenceFields s).getD 6 "") = none) →
      (parse_nmea st s).has_fix = true ∧ get_coordinates (parse_nmea st s) = (none, none)) := by
  refine ⟨?_, ?_, ?_⟩
  · intro h0 h1 hq
    simp only [parse_nmea]
    rw [if_pos ⟨h0, h1⟩]
    simp only [hq]
  · intro h0 h1 q hq hq1 h4 h5 hbad
    simp only [parse_nmea]
    rw [if_pos ⟨h0, h1⟩]
    simp only [hq]
    rw [if_pos hq1, if_pos ⟨h4, h5⟩]
    refine ⟨rfl, ?_⟩
    rcases hbad with hb | hb
    · rw [hb]
      simp [get_coordinates]
    · rw [hb]
      simp [get_coordinates]
  · intro h0 h1 h2 h4 h5 hbad
    simp only [parse_nmea]
    rw [if_neg fun hc => absurd (h0.symm.trans hc.1) (by decide), if_pos ⟨h0, h1⟩,
      if_pos h2, if_pos ⟨h4, h5⟩]
    refine ⟨rfl, ?_⟩
    rcases hbad with hb | hb
    · rw [hb]
      simp [get_coordinates]
    · rw [hb]
      simp [get_coordinates]

/-- C4 counterexample: `ggaLat99` is accepted as a valid fix (fix quality 1,
parseable coordinate fields), yet the decoded latitude is 99, outside the
claimed invariant range `[-90, 90]` — the decoder performs no range check. -/
theorem C4_range_counterexample :
    (parse_nmea clearedState ggaLat99).has_fix = true ∧
    (parse_nmea clearedState ggaLat99).latitude = some (99 : ℚ) ∧
    ¬ ((99 : ℚ) ≤ 90) := by
  refine ⟨by decide, ?_, by norm_num⟩
  simp [parse_nmea, ggaLat99, sentenceFields, splitOnChar, pyInt, pyIntBody,
    convert_nmea_latitude, strTake, strDrop, pyFloat, pyFloatBody, digitsVal]

/-- C4 amended: the decoder returns `±(dd + mm/60)` without any range
validation, so the invariant latitude ∈ [-90, 90] (longitude ∈ [-180, 180])
holds exactly when the parsed degree and minute fields are non-negative and
their combination stays within range — not for every accepted sentence. -/
theorem C4_range_amended (slat sdirlat slon sdirlon : String) (dd mm ddd mm2 vlat vlon : ℚ)
    (h1 : pyFloat (strTake slat 2) = some dd)
    (h2 : pyFloat (strDrop slat 2) = some mm)
    (h3 : 0 ≤ dd) (h4 : 0 ≤ mm) (h5 : dd + mm / 60 ≤ 90)
    (h6 : convert_nmea_latitude slat sdirlat = some vlat)
    (h7 : pyFloat (strTake slon 3) = some ddd)
    (h8 : pyFloat (strDrop slon 3) = some mm2)
    (h9 : 0 ≤ ddd) (h10 : 0 ≤ mm2) (h11 : ddd + mm2 / 60 ≤ 180)
    (h12 : convert_nmea_longitude slon sdirlon = some vlon) :
    (-90 ≤ vlat ∧ vlat ≤ 90) ∧ (-180 ≤ vlon ∧ vlon ≤ 180) := by
  have hmm : 0 ≤ mm / 60 := by positivity
  have hmm2 : 0 ≤ mm2 / 60 := by positivity
  constructor
  · by_cases he : slat = ""
    · rw [convert_nmea_latitude, if_pos he] at h6
      cases h6
    · rw [convert_nmea_latitude, if_neg he, h1, h2] at h6
      simp only [Option.some.injEq] at h6
      by_cases hdir : sdirlat = "S"
      · rw [if_pos hdir] at h6
        constructor <;> [linarith [h6]; linarith [h6]]
      · rw [if_neg hdir] at h6
        constructor <;> [linarith [h6]; linarith [h6]]
  · by_cases he : slon = ""
    · rw [convert_nmea_longitude, if_pos he] at h12
      cases h12
    · rw [convert_nmea_longitude, if_neg he, h7, h8] at h12
      simp only [Option.some.injEq] at h12
      by_cases hdir : sdirlon = "W"
      · rw [if_pos hdir] at h12
        constructor <;> [linarith [h12]; linarith [h12]]
      · rw [if_neg hdir] at h12
        constructor <;> [linarith [h12]; linarith [h12]]

theorem C4_range_amended_witness :
    (-90 ≤ (48.1173 : ℚ) ∧ (48.1173 : ℚ) ≤ 90) ∧
    (-180 ≤ (691 / 60 : ℚ) ∧ (691 / 60 : ℚ) ≤ 180) := by
  refine C4_range_amended "4807.038" "N" "01131.000" "E" 48 (7.038 : ℚ) 11 31
    (48.1173 : ℚ) (691 / 60 : ℚ)
    (by simp [strTake, pyFloat, pyFloatBody, splitOnChar, digitsVal])
    (by simp [strDrop, pyFloat, pyFloatBody, splitOnChar, digitsVal]
        norm_num)
    (by norm_num) (by norm_num) (by norm_num)
    (by simp [convert_nmea_latitude, strTake, strDrop, pyFloat, pyFloatBody, splitOnChar, digitsVal]
        norm_num)
    (by simp [strTake, pyFloat, pyFloatBody, splitOnChar, digitsVal])
    (by simp [strDrop, pyFloat, pyFloatBody, splitOnChar, digitsVal])
    (by norm_num) (by norm_num) (by norm_num)
    (by simp [convert_nmea_longitude, strTake, strDrop, pyFloat, pyFloatBody, splitOnChar, digitsVal]
        norm_num)

/-- C5: a `$GPGGA` sentence with at least 10 fields whose fix-quality field
parses to 0 puts the tracker in the invalid-fix state whatever the
coordinate fields hold; a `$GPRMC` sentence with at least 10 fields and a
status other than `A` does the same; a `$GPRMC` with status `A` and
non-empty coordinate fields yields a valid fix (`has_fix` set, coordinates
freshly decoded). -/
theorem C5_fix_quality_status (st : GPSState) (s : String) :
    ((sentenceFields s).getD 0 "" = "$GPGGA" → 10 ≤ (sentenceFields s).length →
      pyInt ((sentenceFields s).getD 6 "") = some 0 → parse_nmea st s = clearedState) ∧
    ((sentenceFields s).getD 0 "" = "$GPRMC" → 10 ≤ (sentenceFields s).length →
      (sentenceFields s).getD 2 "" ≠ "A" → parse_nmea st s = clearedState) ∧
    ((sentenceFields s).getD 0 "" = "$GPRMC" → 10 ≤ (sentenceFields s).length →
      (sentenceFields s).getD 2 "" = "A" →
      (sentenceFields s).getD 3 "" ≠ "" → (sentenceFields s).getD 5 "" ≠ "" →
      (parse_nmea st s).has_fix = true ∧
      (parse_nmea st s).latitude =
        convert_nmea_latitude ((sentenceFields s).getD 3 "") ((sentenceFields s).getD 4 "") ∧
      (parse_nmea st s).longitude =
        convert_nmea_longitude ((sentenceFields s).getD 5 "") ((sentenceFields s).getD 6 "")) := by
  refine ⟨?_, ?_, ?_⟩
  · intro h0 h1 hq
    simp only [parse_nmea]
    rw [if_pos ⟨h0, h1⟩]
    simp only [hq]
    rw [if_neg (by decide)]
  · intro h0 h1 h2
    simp only [parse_nmea]
    rw [if_neg fun hc => absurd (h0.symm.trans hc.1) (by decide), if_pos ⟨h0, h1⟩, if_neg h2]
  · intro h0 h1 h2 h4 h5
    simp only [parse_nmea]
    rw [if_neg fun hc => absurd (h0.symm.trans hc.1) (by decide), if_pos ⟨h0, h1⟩,
      if_pos h2, if_pos ⟨h4, h5⟩]
    exact ⟨rfl, rfl, rfl⟩

/-- C9: a line whose first comma-field is neither `$GPGGA` nor `$GPRMC`, or
a `$GPGGA`/`$GPRMC` line with fewer than 10 comma-separated fields, leaves
the tracker's latitude, longitude and `has_fix` exactly as they were. -/
theorem C9_frame_preservation (st : GPSState) (s : String)
    (h : ((sentenceFields s).getD 0 "" ≠ "$GPGGA" ∧ (sentenceFields s).getD 0 "" ≠ "$GPRMC") ∨
      (sentenceFields s).length < 10) :
    parse_nmea st s = st := by
  simp only [parse_nmea]
  rcases h with ⟨hg, hr⟩ | hlen
  · rw [if_neg fun hc => hg hc.1, if_neg fun hc => hr hc.1]
  · rw [if_neg fun hc => absurd hc.2 (not_le.mpr hlen),
      if_neg fun hc => absurd hc.2 (not_le.mpr hlen)]

theorem C9_frame_preservation_witness :
    parse_nmea ⟨some 1, some 2, true⟩ "$GPVTG,054.7,T,034.4,M,005.5,N,010.2,K" =
      ⟨some 1, some 2, true⟩ ∧
    parse_nmea ⟨some 1, some 2, true⟩ "$GPGGA,123519,4807.038,N" = ⟨some 1, some 2, true⟩ :=
  ⟨C9_frame_preservation ⟨some 1, some 2, true⟩ "$GPVTG,054.7,T,034.4,M,005.5,N,010.2,K"
      (Or.inl ⟨by decide, by decide⟩),
    C9_frame_preservation ⟨some 1, some 2, true⟩ "$GPGGA,123519,4807.038,N"
      (Or.inr (by decide))⟩
